import Mathlib

/-!
Shallow embedding of the connection registry and websocket session handler of
`src/backend/main.py` (Driver Monitoring System backend).

Modelling decisions:
* A connection (Python `WebSocket` object) is identified by a `Nat`; Python's
  `in` / `list.remove` compare websocket objects by identity, so distinct
  naturals model distinct connections and `List.erase` models `list.remove`
  (first occurrence).
* `datetime.now().isoformat()` timestamps are modelled as `Nat` values passed
  in explicitly; `None` is `Option.none`.
* A `send_text` call that raises is modelled by a boolean: for broadcasts a
  predicate `fails : Nat → Bool` says which connections' sends raise, and for
  the session handler a flag `sendFails` says whether the reply send raises.
* Python's `for connection in self.active_connections` iterates by index over
  the live list: each step reads the element at the current index of the
  *current* list and stops when the index reaches the current length, so
  removing the current element shifts later elements down one position.
  `sendLoopAux` reproduces exactly that, using a fuel argument equal to the
  initial `conns.length - i` (which bounds the iteration count, since the
  index grows by one each step and the list never grows) to make the
  recursion structural.
-/

/-- The `self.stats` dictionary of `ConnectionManager.__init__`
(src/backend/main.py lines 33-38). -/
structure Stats where
  total_connections : Nat
  is_monitoring : Bool
  last_update : Option Nat
  deriving DecidableEq

/-- The mutable state of the `ConnectionManager` class: the
`active_connections` list and the `stats` dictionary. -/
structure ConnectionManager where
  active_connections : List Nat
  stats : Stats
  deriving DecidableEq

/-- The state built by `ConnectionManager.__init__`: empty connection list,
`total_connections = 0`, `is_monitoring = False`, `last_update = None`. -/
def initManager : ConnectionManager :=
  { active_connections := []
    stats := { total_connections := 0, is_monitoring := false, last_update := none } }

/-- `ConnectionManager.connect` (lines 40-45): accept the websocket, append it
to `active_connections`, set `stats["total_connections"]` to the new list
length and `stats["last_update"]` to the current time. -/
def connect (m : ConnectionManager) (ws : Nat) (now : Nat) : ConnectionManager :=
  let conns := m.active_connections ++ [ws]
  { active_connections := conns
    stats := { m.stats with total_connections := conns.length, last_update := some now } }

/-- `ConnectionManager.disconnect` (lines 47-52): remove the websocket if
present, then set `stats["total_connections"]` to the list length and
`stats["last_update"]` to the current time (both unconditionally). -/
def disconnect (m : ConnectionManager) (ws : Nat) (now : Nat) : ConnectionManager :=
  let conns :=
    if ws ∈ m.active_connections then m.active_connections.erase ws
    else m.active_connections
  { active_connections := conns
    stats := { m.stats with total_connections := conns.length, last_update := some now } }

/-- The body of the `for connection in self.active_connections` loop of
`send_to_all` (lines 54-62), with Python's index-based iteration made
explicit. `i` is the iterator's index, `conns` the current list, `delivered`
the connections whose `send_text` succeeded so far. A failing send is caught
and the connection is removed (`if connection in ...: remove`); iteration
then continues at index `i + 1` of the shrunken list. Returns the final list
and the successfully delivered connections. -/
def sendLoopAux (fails : Nat → Bool) : Nat → Nat → List Nat → List Nat → List Nat × List Nat
  | 0, _, conns, delivered => (conns, delivered)
  | fuel + 1, i, conns, delivered =>
    if h : i < conns.length then
      let c := conns.get ⟨i, h⟩
      if fails c then
        sendLoopAux fails fuel (i + 1)
          (if c ∈ conns then conns.erase c else conns) delivered
      else
        sendLoopAux fails fuel (i + 1) conns (delivered ++ [c])
    else
      (conns, delivered)

/-- `ConnectionManager.send_to_all` (lines 54-62): run the delivery loop over
`active_connections`. Returns the updated manager together with the list of
connections that received the message (the latter is a ghost output recording
the successful `send_text` calls). -/
def send_to_all (fails : Nat → Bool) (m : ConnectionManager) : ConnectionManager × List Nat :=
  let r := sendLoopAux fails m.active_connections.length 0 m.active_connections []
  ({ m with active_connections := r.1 }, r.2)

/-- The delivery loop of `send_to_all` with the exception flow made explicit
in the `Except` monad: each `connection.send_text` either returns or raises
(`Except.error`), and the `try/except` around it catches the error, removes
the connection and continues, so no error ever escapes the loop. -/
def sendLoopExcAux (fails : Nat → Bool) :
    Nat → Nat → List Nat → List Nat → Except String (List Nat × List Nat)
  | 0, _, conns, delivered => Except.ok (conns, delivered)
  | fuel + 1, i, conns, delivered =>
    if h : i < conns.length then
      let c := conns.get ⟨i, h⟩
      match (if fails c then Except.error "send_text raised" else Except.ok ()) with
      | Except.ok _ => sendLoopExcAux fails fuel (i + 1) conns (delivered ++ [c])
      | Except.error _ =>
        sendLoopExcAux fails fuel (i + 1)
          (if c ∈ conns then conns.erase c else conns) delivered
    else
      Except.ok (conns, delivered)

/-- `send_to_all` in the `Except` monad (see `sendLoopExcAux`): the result is
an error exactly when an exception would propagate to the caller. -/
def send_to_all_exc (fails : Nat → Bool) (m : ConnectionManager) :
    Except String (ConnectionManager × List Nat) :=
  match sendLoopExcAux fails m.active_connections.length 0 m.active_connections [] with
  | Except.ok r => Except.ok ({ m with active_connections := r.1 }, r.2)
  | Except.error e => Except.error e

/-- One inbound frame of the websocket endpoint: either `json.loads`
succeeds and `message.get("type")` yields `ty` (`none` when there is no
`"type"` key), or decoding raises (`malformed`: non-JSON text, or a JSON
value that is not an object, so that `.get` raises). -/
inductive Msg where
  | wellFormed (ty : Option String)
  | malformed
  deriving DecidableEq

/-- The replies the endpoint can send back to the requesting connection. -/
inductive Reply where
  | pong (timestamp : Nat)
  | stats (data : Stats)
  | monitoring_started
  | monitoring_stopped
  deriving DecidableEq

/-- Whether the session loop of `websocket_endpoint` keeps running after a
loop iteration (`active`) or the handler has torn the session down
(`closed`). -/
inductive SessionStatus where
  | active
  | closed
  deriving DecidableEq

/-- Result of one iteration of the `websocket_endpoint` receive loop: the
manager state afterwards, the replies actually delivered to the requesting
connection, and whether the session is still active. -/
structure StepResult where
  manager : ConnectionManager
  sent : List Reply
  status : SessionStatus
  deriving DecidableEq

/-- One iteration of the receive loop of `websocket_endpoint`
(lines 73-109) for connection `ws`, given the decoded message, the current
time and whether sending the reply to `ws` raises. A `malformed` message
means `json.loads` (or `.get`) raised: the `except Exception` handler runs
`manager.disconnect(websocket)` and the loop ends. A raising reply send hits
the same handler. An unrecognized `type` falls through every `elif` branch:
no reply, no mutation, loop continues. -/
def websocket_handle_message (m : ConnectionManager) (ws : Nat) (msg : Msg)
    (now : Nat) (sendFails : Bool) : StepResult :=
  match msg with
  | Msg.malformed =>
    { manager := disconnect m ws now, sent := [], status := SessionStatus.closed }
  | Msg.wellFormed ty =>
    if ty = some "ping" then
      if sendFails then
        { manager := disconnect m ws now, sent := [], status := SessionStatus.closed }
      else
        { manager := m, sent := [Reply.pong now], status := SessionStatus.active }
    else if ty = some "get_stats" then
      if sendFails then
        { manager := disconnect m ws now, sent := [], status := SessionStatus.closed }
      else
        { manager := m, sent := [Reply.stats m.stats], status := SessionStatus.active }
    else if ty = some "start_monitoring" then
      let m1 : ConnectionManager :=
        { m with stats := { m.stats with is_monitoring := true, last_update := some now } }
      if sendFails then
        { manager := disconnect m1 ws now, sent := [], status := SessionStatus.closed }
      else
        { manager := m1, sent := [Reply.monitoring_started], status := SessionStatus.active }
    else if ty = some "stop_monitoring" then
      let m1 : ConnectionManager :=
        { m with stats := { m.stats with is_monitoring := false, last_update := some now } }
      if sendFails then
        { manager := disconnect m1 ws now, sent := [], status := SessionStatus.closed }
      else
        { manager := m1, sent := [Reply.monitoring_stopped], status := SessionStatus.active }
    else
      { manager := m, sent := [], status := SessionStatus.active }

/-- The state-mutating events of the whole backend: a new connection
registering (`manager.connect`), a `WebSocketDisconnect` during receive
(`manager.disconnect`), one handled inbound message, and the REST `/start`
and `/stop` endpoints (lines 140-170), which set `is_monitoring` and
`last_update` and then broadcast via `send_to_all`. -/
inductive Event where
  | eConnect (ws : Nat)
  | eDisconnect (ws : Nat)
  | eMessage (ws : Nat) (msg : Msg) (sendFails : Bool)
  | eApiStart (fails : Nat → Bool)
  | eApiStop (fails : Nat → Bool)

/-- Apply one event to the manager state at time `now`. -/
def step (m : ConnectionManager) (e : Event) (now : Nat) : ConnectionManager :=
  match e with
  | Event.eConnect ws => connect m ws now
  | Event.eDisconnect ws => disconnect m ws now
  | Event.eMessage ws msg sendFails => (websocket_handle_message m ws msg now sendFails).manager
  | Event.eApiStart fails =>
    (send_to_all fails
      { m with stats := { m.stats with is_monitoring := true, last_update := some now } }).1
  | Event.eApiStop fails =>
    (send_to_all fails
      { m with stats := { m.stats with is_monitoring := false, last_update := some now } }).1

/-- Run a timed event sequence from a manager state. -/
def run (m : ConnectionManager) : List (Event × Nat) → ConnectionManager
  | [] => m
  | (e, t) :: rest => run (step m e t) rest

/-! Helper lemmas shared by the claim theorems. -/

/-- `send_to_all` writes only `active_connections`; the `stats` record of the
result is the input's `stats` record by construction. -/
theorem send_to_all_stats_eq (fails : Nat → Bool) (m : ConnectionManager) :
    (send_to_all fails m).1.stats = m.stats := rfl

/-- The exception-monad delivery loop always returns `Except.ok` of what the
pure loop computes: the `try/except` around each send absorbs every failure. -/
theorem sendLoopExcAux_ok (fails : Nat → Bool) :
    ∀ fuel i conns delivered,
      sendLoopExcAux fails fuel i conns delivered =
        Except.ok (sendLoopAux fails fuel i conns delivered)
  | 0, _, _, _ => rfl
  | fuel + 1, i, conns, delivered => by
    by_cases hi : i < conns.length
    · by_cases hf : fails (conns.get ⟨i, hi⟩) = true
      · simp only [sendLoopExcAux, sendLoopAux, dif_pos hi, if_pos hf]
        exact sendLoopExcAux_ok fails fuel _ _ _
      · simp only [sendLoopExcAux, sendLoopAux, dif_pos hi, if_neg hf]
        exact sendLoopExcAux_ok fails fuel _ _ _
    · simp only [sendLoopExcAux, sendLoopAux, dif_neg hi]

/-! Claim theorems. -/

/-- C1: evaluation of `send_to_all` on a set of one failing connection
(connection 0) and one healthy connection (connection 1). The code removes
the failing connection but the delivery loop then skips connection 1 (the
list shrank under the iterator), so the healthy connection receives nothing,
and `stats["total_connections"]` is left at 2 although only one connection
remains: the claim's delivery and count statements both fail on the code. -/
theorem broadcast_one_failing_eval :
    (send_to_all (fun n => n == 0) (connect (connect initManager 0 1) 1 2)).1.active_connections
        = [1] ∧
    (send_to_all (fun n => n == 0) (connect (connect initManager 0 1) 1 2)).2 = [] ∧
    (send_to_all (fun n => n == 0)
        (connect (connect initManager 0 1) 1 2)).1.stats.total_connections = 2 := by
  decide

/-- C2 counterexample: a reachable state violating the claimed invariant.
After two connections register and the REST `/start` broadcast removes the
failing connection 1, the stored `total_connections` is still 2 while the
live connection set has one element. -/
theorem count_set_mismatch_after_broadcast :
    (run initManager [(Event.eConnect 0, 1), (Event.eConnect 1, 2),
        (Event.eApiStart (fun n => n == 1), 3)]).stats.total_connections = 2 ∧
    (run initManager [(Event.eConnect 0, 1), (Event.eConnect 1, 2),
        (Event.eApiStart (fun n => n == 1), 3)]).active_connections.length = 1 := by
  decide

/-- C2 amended: after every `connect` and every `disconnect` the stored
`total_connections` equals the size of the live connection set, but
`send_to_all` never updates the stored count (its `stats` output equals its
`stats` input), so a broadcast that removes failed connections leaves the
stored count above the live size until the next connect/disconnect. -/
theorem count_matches_set_except_broadcast (m : ConnectionManager) (ws now : Nat)
    (fails : Nat → Bool) :
    (connect m ws now).stats.total_connections = (connect m ws now).active_connections.length ∧
    (disconnect m ws now).stats.total_connections
        = (disconnect m ws now).active_connections.length ∧
    (send_to_all fails m).1.stats.total_connections = m.stats.total_connections := by
  refine ⟨rfl, rfl, rfl⟩

/-- C3 counterexample: a malformed inbound message is not ignored. With one
registered connection, handling a malformed frame closes the session and
mutates state: the connection is removed from the set (and `last_update` is
rewritten), contradicting "no reply, no mutation, session remains active". -/
theorem malformed_closes_session :
    (websocket_handle_message (connect initManager 0 1) 0 Msg.malformed 2 false).status
        = SessionStatus.closed ∧
    (websocket_handle_message (connect initManager 0 1) 0 Msg.malformed 2 false).manager
        ≠ connect initManager 0 1 ∧
    (websocket_handle_message (connect initManager 0 1) 0
        Msg.malformed 2 false).manager.active_connections = [] := by
  decide

/-- C3 amended: a well-formed message whose `type` is not one of `ping`,
`get_stats`, `start_monitoring`, `stop_monitoring` gets no reply, mutates
nothing and leaves the session active; a malformed message, however,
terminates the session and unregisters the connection (the decode exception
reaches the `except Exception` handler, which calls `disconnect`). -/
theorem unknown_type_ignored_malformed_closes (m : ConnectionManager) (ws now : Nat)
    (sf : Bool) (ty : Option String)
    (h1 : ty ≠ some "ping") (h2 : ty ≠ some "get_stats")
    (h3 : ty ≠ some "start_monitoring") (h4 : ty ≠ some "stop_monitoring") :
    websocket_handle_message m ws (Msg.wellFormed ty) now sf
        = { manager := m, sent := [], status := SessionStatus.active } ∧
    websocket_handle_message m ws Msg.malformed now sf
        = { manager := disconnect m ws now, sent := [], status := SessionStatus.closed } := by
  refine ⟨?_, rfl⟩
  simp [websocket_handle_message, h1, h2, h3, h4]

/-- C3 amended, witness at `type = "frobnicate"` in a one-connection state. -/
theorem unknown_type_ignored_malformed_closes_witness :
    (some "frobnicate" ≠ some "ping" ∧ some "frobnicate" ≠ some "get_stats" ∧
     some "frobnicate" ≠ some "start_monitoring" ∧ some "frobnicate" ≠ some "stop_monitoring") ∧
    (websocket_handle_message (connect initManager 0 1) 0
        (Msg.wellFormed (some "frobnicate")) 2 false
        = { manager := connect initManager 0 1, sent := [], status := SessionStatus.active } ∧
     websocket_handle_message (connect initManager 0 1) 0 Msg.malformed 2 false
        = { manager := disconnect (connect initManager 0 1) 0 2, sent := [],
            status := SessionStatus.closed }) :=
  ⟨⟨by decide, by decide, by decide, by decide⟩,
   unknown_type_ignored_malformed_closes (connect initManager 0 1) 0 2 false
     (some "frobnicate") (by decide) (by decide) (by decide) (by decide)⟩

/-- C4: `send_to_all` never raises to its caller. In the exception-monad
rendering of the loop, where every individual `send_text` may raise, the
result is always `Except.ok` of exactly what the pure rendering computes —
every per-connection failure is absorbed by the `try/except` in the loop. -/
theorem send_to_all_never_raises (fails : Nat → Bool) (m : ConnectionManager) :
    send_to_all_exc fails m = Except.ok (send_to_all fails m) := by
  unfold send_to_all_exc send_to_all
  rw [sendLoopExcAux_ok]

/-- C5 counterexample: in the reachable state where a broadcast has removed
failing connection 1, a `get_stats` request from connection 0 is answered
with `total_connections = 2` although the live connection set has exactly
one element — the reply does not equal the live count at reply time. -/
theorem get_stats_reports_stale_count :
    (websocket_handle_message
        (run initManager [(Event.eConnect 0, 1), (Event.eConnect 1, 2),
          (Event.eApiStart (fun n => n == 1), 3)])
        0 (Msg.wellFormed (some "get_stats")) 4 false).sent
      = [Reply.stats { total_connections := 2, is_monitoring := true, last_update := some 3 }] ∧
    (run initManager [(Event.eConnect 0, 1), (Event.eConnect 1, 2),
        (Event.eApiStart (fun n => n == 1), 3)]).active_connections.length = 1 := by
  decide

/-- C5 amended: the `get_stats` reply reports the stored `stats` record as
is — `data.total_connections` equals `stats["total_connections"]` at reply
time, not the live set size — and handling `get_stats` mutates nothing. (By
`count_set_mismatch_after_broadcast`, the stored value can differ from the
live count after a broadcast removed dead connections.) -/
theorem get_stats_reports_stored_count (m : ConnectionManager) (ws now : Nat) :
    (websocket_handle_message m ws (Msg.wellFormed (some "get_stats")) now false).sent
        = [Reply.stats m.stats] ∧
    (websocket_handle_message m ws (Msg.wellFormed (some "get_stats")) now false).manager = m := by
  refine ⟨?_, ?_⟩ <;> simp [websocket_handle_message]

/-- C8: `send_to_all` leaves every `stats` field unchanged — it shrinks only
`active_connections`, never touching `total_connections`, `is_monitoring` or
`last_update`, even when failing connections are removed. -/
theorem send_to_all_preserves_stats (fails : Nat → Bool) (m : ConnectionManager) :
    (send_to_all fails m).1.stats.total_connections = m.stats.total_connections ∧
    (send_to_all fails m).1.stats.is_monitoring = m.stats.is_monitoring ∧
    (send_to_all fails m).1.stats.last_update = m.stats.last_update := by
  refine ⟨rfl, rfl, rfl⟩

/-- C9: in the `start_monitoring` and `stop_monitoring` branches the stats
mutation happens before the reply send, so when the reply send raises, the
resulting state is exactly the mutated state passed through `disconnect` of
the requesting connection: the new `is_monitoring` value persists (the
`except Exception` handler performs no rollback) and the only additional
effect is the unregistration. -/
theorem start_stop_mutate_before_reply (m : ConnectionManager) (ws now : Nat) :
    websocket_handle_message m ws (Msg.wellFormed (some "start_monitoring")) now true
        = { manager := disconnect
              { m with stats := { m.stats with is_monitoring := true, last_update := some now } }
              ws now,
            sent := [], status := SessionStatus.closed } ∧
    websocket_handle_message m ws (Msg.wellFormed (some "stop_monitoring")) now true
        = { manager := disconnect
              { m with stats := { m.stats with is_monitoring := false, last_update := some now } }
              ws now,
            sent := [], status := SessionStatus.closed } ∧
    (websocket_handle_message m ws (Msg.wellFormed (some "start_monitoring"))
        now true).manager.stats.is_monitoring = true ∧
    (websocket_handle_message m ws (Msg.wellFormed (some "stop_monitoring"))
        now true).manager.stats.is_monitoring = false := by
  refine ⟨?_, ?_, ?_, ?_⟩ <;> simp [websocket_handle_message, disconnect]

/-- C10: `disconnect` on a connection that is not registered leaves the
connection list unchanged but still recomputes `stats["total_connections"]`
from the list length and overwrites `stats["last_update"]` with the current
time — the absent case is not a no-op on the stats record. -/
theorem disconnect_absent_updates_stats (m : ConnectionManager) (ws now : Nat)
    (h : ws ∉ m.active_connections) :
    (disconnect m ws now).active_connections = m.active_connections ∧
    (disconnect m ws now).stats.total_connections = m.active_connections.length ∧
    (disconnect m ws now).stats.last_update = some now := by
  refine ⟨?_, ?_, ?_⟩ <;> simp [disconnect, h]

/-- C10 witness: unregistering absent connection 5 from the one-connection
state. -/
theorem disconnect_absent_updates_stats_witness :
    5 ∉ (connect initManager 0 1).active_connections ∧
    ((disconnect (connect initManager 0 1) 5 7).active_connections
        = (connect initManager 0 1).active_connections ∧
     (disconnect (connect initManager 0 1) 5 7).stats.total_connections
        = (connect initManager 0 1).active_connections.length ∧
     (disconnect (connect initManager 0 1) 5 7).stats.last_update = some 7) :=
  ⟨by decide, disconnect_absent_updates_stats (connect initManager 0 1) 5 7 (by decide)⟩

/-! Register/unregister sequences (claim C6). -/

/-- A registry-only event: one `connect` or one `disconnect` call. -/
inductive RegEvent where
  | reg (ws : Nat)
  | unreg (ws : Nat)

/-- Run a timed sequence of connect/disconnect calls. -/
def runReg (m : ConnectionManager) : List (RegEvent × Nat) → ConnectionManager
  | [] => m
  | (RegEvent.reg ws, t) :: rest => runReg (connect m ws t) rest
  | (RegEvent.unreg ws, t) :: rest => runReg (disconnect m ws t) rest

/-- The caller contract of the session handler: a connection is only
registered while it is not currently a member (each handler registers its
connection exactly once, on accept). Unregister carries no precondition. -/
def regContract (m : ConnectionManager) : List (RegEvent × Nat) → Bool
  | [] => true
  | (RegEvent.reg ws, t) :: rest =>
    (!decide (ws ∈ m.active_connections)) && regContract (connect m ws t) rest
  | (RegEvent.unreg ws, t) :: rest => regContract (disconnect m ws t) rest

/-- Invariant carried through a contract-respecting sequence: the connection
list stays duplicate-free and the stored count stays equal to its length. -/
theorem runReg_invariant :
    ∀ (es : List (RegEvent × Nat)) (m : ConnectionManager),
      m.active_connections.Nodup →
      m.stats.total_connections = m.active_connections.length →
      regContract m es = true →
      (runReg m es).active_connections.Nodup ∧
      (runReg m es).stats.total_connections = (runReg m es).active_connections.length
  | [], _, hn, hc, _ => ⟨hn, hc⟩
  | (RegEvent.reg ws, t) :: rest, m, hn, _, hcon => by
    simp only [regContract, Bool.and_eq_true, Bool.not_eq_true', decide_eq_false_iff_not] at hcon
    obtain ⟨hnotin, hrest⟩ := hcon
    refine runReg_invariant rest (connect m ws t) ?_ rfl hrest
    simp [connect, List.nodup_append, hn, hnotin]
  | (RegEvent.unreg ws, t) :: rest, m, hn, _, hcon => by
    refine runReg_invariant rest (disconnect m ws t) ?_ rfl hcon
    by_cases hws : ws ∈ m.active_connections <;>
      simp [disconnect, hws, hn, hn.erase]

/-- C6: for every sequence of connect/disconnect calls respecting the caller
contract (never registering a connection that is currently a member), the
final connection list is duplicate-free — so its length is the number of
distinct registered connections — and the stored `total_connections` equals
that number. Unregistering an absent connection is permitted by the contract
and preserves the equality. -/
theorem register_unregister_count_correct (es : List (RegEvent × Nat))
    (h : regContract initManager es = true) :
    (runReg initManager es).active_connections.Nodup ∧
    (runReg initManager es).stats.total_connections
        = (runReg initManager es).active_connections.length :=
  runReg_invariant es initManager (by simp [initManager]) rfl h

/-- C6 witness: register 0 and 1, unregister absent 5, unregister 0. -/
theorem register_unregister_count_correct_witness :
    regContract initManager [(RegEvent.reg 0, 1), (RegEvent.reg 1, 2),
        (RegEvent.unreg 5, 3), (RegEvent.unreg 0, 4)] = true ∧
    ((runReg initManager [(RegEvent.reg 0, 1), (RegEvent.reg 1, 2),
        (RegEvent.unreg 5, 3), (RegEvent.unreg 0, 4)]).active_connections.Nodup ∧
     (runReg initManager [(RegEvent.reg 0, 1), (RegEvent.reg 1, 2),
        (RegEvent.unreg 5, 3), (RegEvent.unreg 0, 4)]).stats.total_connections
        = (runReg initManager [(RegEvent.reg 0, 1), (RegEvent.reg 1, 2),
            (RegEvent.unreg 5, 3), (RegEvent.unreg 0, 4)]).active_connections.length) :=
  ⟨by decide, register_unregister_count_correct _ (by decide)⟩

/-! Monotonicity of `last_update` (claim C7). -/

/-- Order on observed `last_update` values: `none` (the initial `None`)
precedes everything; timestamps are compared numerically. -/
def luLEb : Option Nat → Option Nat → Bool
  | none, _ => true
  | some _, none => false
  | some a, some b => decide (a ≤ b)

theorem luLEb_refl (x : Option Nat) : luLEb x x = true := by
  cases x <;> simp [luLEb]

theorem luLEb_trans (x y z : Option Nat) (h1 : luLEb x y = true)
    (h2 : luLEb y z = true) : luLEb x z = true := by
  cases x <;> cases y <;> cases z <;> (simp_all [luLEb]; try omega)

/-- The real-time clock assumption: along the event sequence, each
`datetime.now()` reading is at least the `last_update` value current when it
is taken (true of a monotone wall clock, since every stored `last_update` is
a previous `now()` reading). -/
def clockOK (m : ConnectionManager) : List (Event × Nat) → Bool
  | [] => true
  | (e, t) :: rest => luLEb m.stats.last_update (some t) && clockOK (step m e t) rest

/-- Every event either leaves `last_update` unchanged or writes the current
time: `connect`, `disconnect`, the REST start/stop and the mutating wire
handlers write `some t`; `ping`/`get_stats` replies and ignored messages
leave it alone. -/
theorem step_lastUpdate (m : ConnectionManager) (e : Event) (t : Nat) :
    (step m e t).stats.last_update = m.stats.last_update ∨
    (step m e t).stats.last_update = some t := by
  cases e with
  | eConnect ws => exact Or.inr rfl
  | eDisconnect ws => exact Or.inr rfl
  | eMessage ws msg sf =>
    cases msg with
    | malformed => exact Or.inr rfl
    | wellFormed ty =>
      simp only [step, websocket_handle_message]
      split_ifs <;> first | exact Or.inl rfl | exact Or.inr rfl
  | eApiStart fails => exact Or.inr rfl
  | eApiStop fails => exact Or.inr rfl

theorem run_append (es1 es2 : List (Event × Nat)) :
    ∀ m, run m (es1 ++ es2) = run (run m es1) es2 := by
  induction es1 with
  | nil => intro m; rfl
  | cons p rest ih =>
    intro m
    obtain ⟨e, t⟩ := p
    simp only [List.cons_append, run]
    exact ih (step m e t)

theorem clockOK_append (es1 es2 : List (Event × Nat)) :
    ∀ m, clockOK m (es1 ++ es2) = true → clockOK (run m es1) es2 = true := by
  induction es1 with
  | nil => intro m h; exact h
  | cons p rest ih =>
    intro m h
    obtain ⟨e, t⟩ := p
    simp only [List.cons_append, clockOK, Bool.and_eq_true] at h
    exact ih (step m e t) h.2

theorem clockOK_run_mono :
    ∀ (es : List (Event × Nat)) (m : ConnectionManager), clockOK m es = true →
      luLEb m.stats.last_update (run m es).stats.last_update = true
  | [], m, _ => luLEb_refl _
  | (e, t) :: rest, m, h => by
    simp only [clockOK, Bool.and_eq_true] at h
    have hstep : luLEb m.stats.last_update (step m e t).stats.last_update = true := by
      rcases step_lastUpdate m e t with he | he
      · rw [he]; exact luLEb_refl _
      · rw [he]; exact h.1
    have ih := clockOK_run_mono rest (step m e t) h.2
    exact luLEb_trans _ _ _ hstep ih

/-- C7: `last_update` is monotonically non-decreasing. Starting from any
state, under the monotone-clock assumption, the value observed after any
longer prefix of the event sequence is at least (in the order where the
initial `none` precedes every timestamp) the value observed after any
shorter prefix — every writing operation stores the current clock reading
and no operation ever stores an older one. -/
theorem lastUpdate_monotone (m : ConnectionManager) (es1 es2 : List (Event × Nat))
    (h : clockOK m (es1 ++ es2) = true) :
    luLEb (run m es1).stats.last_update (run m (es1 ++ es2)).stats.last_update = true := by
  rw [run_append]
  exact clockOK_run_mono es2 (run m es1) (clockOK_append es1 es2 m h)

/-- C7 witness: a connect at time 1 followed by a `start_monitoring` message
at time 2, observed after the first and after both events. -/
theorem lastUpdate_monotone_witness :
    clockOK initManager [(Event.eConnect 0, 1),
        (Event.eMessage 0 (Msg.wellFormed (some "start_monitoring")) false, 2)] = true ∧
    luLEb (run initManager [(Event.eConnect 0, 1)]).stats.last_update
      (run initManager [(Event.eConnect 0, 1),
        (Event.eMessage 0 (Msg.wellFormed (some "start_monitoring")) false, 2)]).stats.last_update
      = true :=
  ⟨by decide, lastUpdate_monotone initManager [(Event.eConnect 0, 1)]
    [(Event.eMessage 0 (Msg.wellFormed (some "start_monitoring")) false, 2)] (by decide)⟩
